import Mathlib

/-!
Shallow embedding of `src/forest_plot_app.py` (a Streamlit forest-plot
generator).  The embedded core is

* the Table Validator: the upload-handling block at lines 139-158 of the
  source (required-column check, `pd.to_numeric(errors=coerce)` coercion of
  the three numeric columns, `dropna` on those columns, dropped-row count),
  and
* the Chart Builder: the function `generate_plotly_forest_plot` at lines
  17-118 (row reversal, scatter trace with asymmetric error bars, reference
  line, adaptive x-axis range, right-aligned numeric annotations).

Real arithmetic of the source (Python floats) is modelled exactly over the
rationals.  The validator additionally has to account for the non-finite
IEEE-754 doubles that `pd.to_numeric` can produce (NaN for a cell that does
not parse as a number, plus or minus infinity for cells such as "inf"), so
validator cells live in a four-constructor type `PFloat` classifying a
double as finite (carrying its exact value), infinite, or NaN.
-/

namespace ForestPlot

/-- Classification of an IEEE-754 double as it comes out of
`pd.to_numeric(errors=coerce)`: a finite value (carried exactly as a
rational), one of the two infinities (produced e.g. by the cell "inf"),
or NaN, which is the distinguished marker `to_numeric` assigns to every
cell that does not parse as a number. -/
inductive PFloat where
  | finite (q : ℚ)
  | posInf
  | negInf
  | nan
deriving DecidableEq

/-- The numpy isnan test on a classified double. -/
def PFloat.isNaN : PFloat → Bool
  | .nan => true
  | _ => false

/-- The numpy isfinite test on a classified double. -/
def PFloat.isFinite : PFloat → Bool
  | .finite _ => true
  | _ => false

/-- The exact value of a finite classified double (junk value 0 on the
non-finite constructors; only ever used on finite cells). -/
def PFloat.toQ : PFloat → ℚ
  | .finite q => q
  | _ => 0

/-- One row of the uploaded table after column extraction: the `label` cell
and the three numeric cells, each numeric cell represented by its
`pd.to_numeric(errors=coerce)` coercion result. -/
structure RawRow where
  label : String
  value : PFloat
  lower_ci : PFloat
  upper_ci : PFloat
deriving DecidableEq

/-- The uploaded table handed to the validation block: its column-name list
(`data_df.columns`) and its rows. -/
structure RawTable where
  columns : List String
  rows : List RawRow
deriving DecidableEq

/-- The set `required_cols = ("label", "value", "lower_ci", "upper_ci")` from
line 139 of the source. -/
def required_cols : List String := ["label", "value", "lower_ci", "upper_ci"]

/-- Result of the validation block (lines 139-158): whether the
required-column check failed (the `st.error` branch that also empties the
DataFrame), the surviving rows, and the dropped-row count
`initial_rows - len(data_df)` surfaced in the sidebar warning. -/
structure ValidationResult where
  schemaError : Bool
  table : List RawRow
  dropped : Nat
deriving DecidableEq

/-- A row survives `data_df.dropna(subset=["value", "lower_ci", "upper_ci"])`
exactly when none of its three numeric cells is NaN. -/
def rowValid (r : RawRow) : Bool :=
  !r.value.isNaN && !r.lower_ci.isNaN && !r.upper_ci.isNaN

/-- The Table Validator, lines 139-158 of the source: if any required column
is missing the DataFrame is emptied and an error shown; otherwise the three
numeric columns are coerced (already reflected in the `PFloat` cells), rows
with NaN in a coerced column are dropped, and the number of dropped rows is
reported. -/
def validate (t : RawTable) : ValidationResult :=
  if ∀ c ∈ required_cols, c ∈ t.columns then
    let kept := t.rows.filter rowValid
    { schemaError := false, table := kept, dropped := t.rows.length - kept.length }
  else
    { schemaError := true, table := [], dropped := 0 }

/-- A validated record as `generate_plotly_forest_plot` consumes it: the
label and the three (finite) numeric fields, modelled exactly. -/
structure Record where
  label : String
  value : ℚ
  lower_ci : ℚ
  upper_ci : ℚ
deriving DecidableEq

/-- The view of a surviving raw row as a chart-builder record. -/
def RawRow.toRecord (r : RawRow) : Record :=
  { label := r.label, value := r.value.toQ, lower_ci := r.lower_ci.toQ,
    upper_ci := r.upper_ci.toQ }

/-- The `plot_colors` dictionary built at lines 187-191 of the source. -/
structure PlotColors where
  marker : String
  ci_line : String
  ref_line : String
deriving DecidableEq

/-- Default colors of the three color pickers (lines 183-185). -/
def defaultColors : PlotColors :=
  { marker := "#0000FF", ci_line := "#808080", ref_line := "#FF0000" }

/-- One `fig.add_annotation` call (lines 109-117): position, text and
anchoring of a per-row numeric annotation. -/
structure Annotation where
  x : ℚ
  y : String
  text : String
  xanchor : String
  yanchor : String
deriving DecidableEq

/-- The Plotly figure assembled by `generate_plotly_forest_plot`, restricted
to the data the specification talks about: the scatter trace (marker
positions, asymmetric error-bar extents, hover texts), the reference line,
the y-axis category array, the computed x-axis range, the annotation list
and the styling values threaded through from the configuration. -/
structure Figure where
  trace_x : List ℚ
  trace_y : List String
  err_array : List ℚ
  err_arrayminus : List ℚ
  trace_hovertext : List String
  vline_x : ℚ
  yaxis_categoryarray : List String
  xaxis_range_min : ℚ
  xaxis_range_max : ℚ
  annotations : List Annotation
  title : String
  x_axis_label : String
  marker_color : String
  ci_color : String
  ref_color : String
deriving DecidableEq

/-- The pandas column minimum `Series.min()`, for the non-empty tables the
Chart Builder is invoked on (junk value 0 on an empty column). -/
def qmin : List ℚ → ℚ
  | [] => 0
  | x :: xs => xs.foldl min x

/-- The pandas column maximum `Series.max()`, for the non-empty tables the
Chart Builder is invoked on (junk value 0 on an empty column). -/
def qmax : List ℚ → ℚ
  | [] => 0
  | x :: xs => xs.foldl max x

/-- Round-half-to-even at integer precision, the rounding used by the
Python fixed-point format specifier. -/
def roundHalfEven (q : ℚ) : ℤ :=
  if q - ⌊q⌋ < 1 / 2 then ⌊q⌋
  else if 1 / 2 < q - ⌊q⌋ then ⌊q⌋ + 1
  else if ⌊q⌋ % 2 = 0 then ⌊q⌋ else ⌊q⌋ + 1

/-- Two-digit zero padding of the fractional part. -/
def natPad2 (n : Nat) : String :=
  if n < 10 then "0" ++ toString n else toString n

/-- The Python format expression `f"\x7bx:.2f\x7d"` on an exact value:
fixed two-decimal rendering with round-half-to-even and a leading minus
sign for negative inputs. -/
def format2f (q : ℚ) : String :=
  let m := (roundHalfEven (q * 100)).natAbs
  (if q < 0 then "-" else "") ++ toString (m / 100) ++ "." ++ natPad2 (m % 100)

/-- The Chart Builder: `generate_plotly_forest_plot` (lines 17-118 of the
source), argument for argument.  `df` is the validated table, in input
order; the function reverses it (`df.iloc[::-1]`), emits one scatter trace
with asymmetric error bars, adds the dashed reference line, computes the
adaptive x-axis range from the data extrema and the reference value, and
places one right-aligned annotation per row at the right edge. -/
def generate_plotly_forest_plot (df : List Record) (title : String)
    (ref_line_value : ℚ) (x_axis_label : String) (plot_colors : PlotColors) :
    Figure :=
  let df_sorted := df.reverse
  let y_labels := df_sorted.map Record.label
  let x_min_data := qmin (df_sorted.map Record.lower_ci)
  let x_max_data := qmax (df_sorted.map Record.upper_ci)
  let effective_min_x := min x_min_data ref_line_value
  let effective_max_x := max x_max_data ref_line_value
  let padding_factor : ℚ := 20 / 100
  let calculated_x_range_max :=
    effective_max_x + (effective_max_x - effective_min_x) * padding_factor
  let calculated_x_range_min :=
    effective_min_x - (effective_max_x - effective_min_x) * padding_factor * (1 / 10)
  { trace_x := df_sorted.map Record.value
    trace_y := y_labels
    err_array := df_sorted.map (fun r => r.upper_ci - r.value)
    err_arrayminus := df_sorted.map (fun r => r.value - r.lower_ci)
    trace_hovertext := df_sorted.map (fun r =>
      "CI: [" ++ format2f r.lower_ci ++ ", " ++ format2f r.upper_ci ++ "]")
    vline_x := ref_line_value
    yaxis_categoryarray := y_labels
    xaxis_range_min := calculated_x_range_min
    xaxis_range_max := calculated_x_range_max
    annotations := df_sorted.map (fun r =>
      { x := calculated_x_range_max
        y := r.label
        text := format2f r.value ++ " [" ++ format2f r.lower_ci ++ ", "
          ++ format2f r.upper_ci ++ "]"
        xanchor := "right"
        yanchor := "middle" })
    title := title
    x_axis_label := x_axis_label
    marker_color := plot_colors.marker
    ci_color := plot_colors.ci_line
    ref_color := plot_colors.ref_line }

/-- Plotly lays a categorical y-axis out bottom-up: entry 0 of
`categoryarray` sits at the bottom of the plot.  Reading the axis top to
bottom therefore traverses the category array in reverse. -/
def Figure.topToBottomLabels (f : Figure) : List String :=
  f.yaxis_categoryarray.reverse

/-- The display configuration collected in the sidebar (lines 174-191). -/
structure Config where
  title : String
  ref_line_value : ℚ
  x_axis_label : String
  colors : PlotColors
deriving DecidableEq

/-- The full pipeline as wired at lines 196-208: validate the upload, and
build the figure only when the validated table is non-empty (`data_df.empty`
guards the call). -/
def runPipeline (t : RawTable) (cfg : Config) : ValidationResult × Option Figure :=
  let v := validate t
  if v.table.isEmpty then (v, none)
  else (v, some (generate_plotly_forest_plot (v.table.map RawRow.toRecord)
    cfg.title cfg.ref_line_value cfg.x_axis_label cfg.colors))

/-- The row `"A",0.75,0.60,0.90` of the end-to-end example of the
specification, as cells after numeric coercion. -/
def rowA : RawRow :=
  { label := "A", value := .finite (75 / 100), lower_ci := .finite (60 / 100),
    upper_ci := .finite (90 / 100) }

/-- The row `"B",1.20,1.05,1.35` of the end-to-end example of the
specification, as cells after numeric coercion. -/
def rowB : RawRow :=
  { label := "B", value := .finite (120 / 100), lower_ci := .finite (105 / 100),
    upper_ci := .finite (135 / 100) }

/-- A row whose value cell failed numeric coercion (e.g. the cell "abc"),
so `pd.to_numeric` turned it into NaN. -/
def nanRow : RawRow :=
  { label := "C", value := .nan, lower_ci := .finite 1, upper_ci := .finite 2 }

/-- A row whose value cell is the double infinity: `pd.to_numeric` maps the
cell "inf" (or an already-infinite float) to inf, not to NaN. -/
def infRow : RawRow :=
  { label := "D", value := .posInf, lower_ci := .finite 1, upper_ci := .finite 2 }

/-- The end-to-end example table: all four required columns, rows A then B. -/
def table9 : RawTable := { columns := required_cols, rows := [rowA, rowB] }

/-- A well-formed table with one non-coercible cell in its middle row. -/
def tableDrop : RawTable := { columns := required_cols, rows := [rowA, nanRow, rowB] }

/-- A table missing the required column upper_ci. -/
def tableMissing : RawTable :=
  { columns := ["label", "value", "lower_ci"], rows := [] }

/-- A table whose single row carries an infinite coerced cell. -/
def infTable : RawTable := { columns := required_cols, rows := [infRow] }

/-- The default sidebar configuration of the source (lines 174-185). -/
def cfg9 : Config :=
  { title := "Forest Plot de tus Datos", ref_line_value := 0,
    x_axis_label := "Valor Estimado e Intervalo de Confianza",
    colors := defaultColors }

/-- Record A of the end-to-end example, as the Chart Builder sees it. -/
def recA : Record :=
  { label := "A", value := 75 / 100, lower_ci := 60 / 100, upper_ci := 90 / 100 }

/-- Record B of the end-to-end example, as the Chart Builder sees it. -/
def recB : Record :=
  { label := "B", value := 120 / 100, lower_ci := 105 / 100, upper_ci := 135 / 100 }

/-- A record violating the ordering lower_ci ≤ value ≤ upper_ci, to observe
that error-bar extents are passed through unclamped. -/
def recNeg : Record :=
  { label := "N", value := 1, lower_ci := 1, upper_ci := 1 / 2 }

/-- A record spanning lower_ci 0.40 to upper_ci 1.35, the extrema of the
adaptive-range example of the specification. -/
def recSpan : Record :=
  { label := "S", value := 1, lower_ci := 40 / 100, upper_ci := 135 / 100 }

/-- A record whose bounds coincide, for the degenerate zero-span case. -/
def recConst : Record :=
  { label := "K", value := 1, lower_ci := 1, upper_ci := 1 }

/-! ## Helper lemmas about list minima and maxima -/

theorem foldl_min_le_init (l : List ℚ) (a : ℚ) : l.foldl min a ≤ a := by
  induction l generalizing a with
  | nil => simp
  | cons x xs ih =>
    exact le_trans (ih (min a x)) (min_le_left a x)

theorem foldl_min_le_mem (l : List ℚ) (a : ℚ) : ∀ x ∈ l, l.foldl min a ≤ x := by
  induction l generalizing a with
  | nil => simp
  | cons y ys ih =>
    intro x hx
    rcases List.mem_cons.mp hx with h | h
    · subst h
      exact le_trans (foldl_min_le_init ys (min a x)) (min_le_right a x)
    · exact ih (min a y) x h

theorem foldl_min_mem_or (l : List ℚ) (a : ℚ) :
    l.foldl min a = a ∨ l.foldl min a ∈ l := by
  induction l generalizing a with
  | nil => simp
  | cons y ys ih =>
    have step : (y :: ys).foldl min a = ys.foldl min (min a y) := rfl
    rcases ih (min a y) with h | h
    · rcases min_choice a y with hm | hm
      · exact Or.inl (by rw [step, h, hm])
      · exact Or.inr (by rw [step, h, hm]; exact List.mem_cons_self y ys)
    · exact Or.inr (by rw [step]; exact List.mem_cons_of_mem y h)

theorem qmin_le (l : List ℚ) (x : ℚ) (hx : x ∈ l) : qmin l ≤ x := by
  cases l with
  | nil => simp at hx
  | cons y ys =>
    rcases List.mem_cons.mp hx with h | h
    · subst h; exact foldl_min_le_init ys x
    · exact foldl_min_le_mem ys y x h

theorem qmin_mem (l : List ℚ) (h : l ≠ []) : qmin l ∈ l := by
  cases l with
  | nil => exact absurd rfl h
  | cons y ys =>
    rcases foldl_min_mem_or ys y with h1 | h1
    · rw [qmin, h1]; exact List.mem_cons_self y ys
    · rw [qmin]; exact List.mem_cons_of_mem y h1

theorem qmin_eq_of (l : List ℚ) (a : ℚ) (h : l ≠ []) (hmem : a ∈ l)
    (hle : ∀ x ∈ l, a ≤ x) : qmin l = a :=
  le_antisymm (qmin_le l a hmem) (hle _ (qmin_mem l h))

theorem qmin_reverse (l : List ℚ) (h : l ≠ []) : qmin l.reverse = qmin l := by
  apply qmin_eq_of
  · simpa using h
  · simpa using qmin_mem l h
  · intro x hx
    exact qmin_le l x (by simpa using hx)

theorem foldl_max_init_le (l : List ℚ) (a : ℚ) : a ≤ l.foldl max a := by
  induction l generalizing a with
  | nil => simp
  | cons x xs ih =>
    exact le_trans (le_max_left a x) (ih (max a x))

theorem foldl_max_mem_le (l : List ℚ) (a : ℚ) : ∀ x ∈ l, x ≤ l.foldl max a := by
  induction l generalizing a with
  | nil => simp
  | cons y ys ih =>
    intro x hx
    rcases List.mem_cons.mp hx with h | h
    · subst h
      exact le_trans (le_max_right a x) (foldl_max_init_le ys (max a x))
    · exact ih (max a y) x h

theorem foldl_max_mem_or (l : List ℚ) (a : ℚ) :
    l.foldl max a = a ∨ l.foldl max a ∈ l := by
  induction l generalizing a with
  | nil => simp
  | cons y ys ih =>
    have step : (y :: ys).foldl max a = ys.foldl max (max a y) := rfl
    rcases ih (max a y) with h | h
    · rcases max_choice a y with hm | hm
      · exact Or.inl (by rw [step, h, hm])
      · exact Or.inr (by rw [step, h, hm]; exact List.mem_cons_self y ys)
    · exact Or.inr (by rw [step]; exact List.mem_cons_of_mem y h)

theorem qmax_le (l : List ℚ) (x : ℚ) (hx : x ∈ l) : x ≤ qmax l := by
  cases l with
  | nil => simp at hx
  | cons y ys =>
    rcases List.mem_cons.mp hx with h | h
    · subst h; exact foldl_max_init_le ys x
    · exact foldl_max_mem_le ys y x h

theorem qmax_mem (l : List ℚ) (h : l ≠ []) : qmax l ∈ l := by
  cases l with
  | nil => exact absurd rfl h
  | cons y ys =>
    rcases foldl_max_mem_or ys y with h1 | h1
    · rw [qmax, h1]; exact List.mem_cons_self y ys
    · rw [qmax]; exact List.mem_cons_of_mem y h1

theorem qmax_eq_of (l : List ℚ) (a : ℚ) (h : l ≠ []) (hmem : a ∈ l)
    (hle : ∀ x ∈ l, x ≤ a) : qmax l = a :=
  le_antisymm (hle _ (qmax_mem l h)) (qmax_le l a hmem)

theorem qmax_reverse (l : List ℚ) (h : l ≠ []) : qmax l.reverse = qmax l := by
  apply qmax_eq_of
  · simpa using h
  · simpa using qmax_mem l h
  · intro x hx
    exact qmax_le l x (by simpa using hx)

/-! ## Claim theorems -/

/-- C1: for every non-empty validated table the Chart Builder renders the
records in the exact reverse of input order: the y-axis category array
equals the input label sequence reversed, and since the plotting coordinate
system stacks categories bottom-up, the top-to-bottom reading of the axis
is exactly the input order, so the first input row appears topmost. -/
theorem chartBuilder_reverses_input_order (df : List Record) (h : df ≠ [])
    (title : String) (r : ℚ) (xl : String) (c : PlotColors) :
    (generate_plotly_forest_plot df title r xl c).yaxis_categoryarray
      = (df.map Record.label).reverse ∧
    (generate_plotly_forest_plot df title r xl c).topToBottomLabels
      = df.map Record.label ∧
    (generate_plotly_forest_plot df title r xl c).topToBottomLabels.head?
      = (df.map Record.label).head? := by
  refine ⟨?_, ?_, ?_⟩ <;>
    simp [generate_plotly_forest_plot, Figure.topToBottomLabels, List.map_reverse]

/-- Witness for C1 at the two-record example table: the category array is
the reversed label list and the top row is the first input row. -/
theorem chartBuilder_reverses_input_order_witness :
    ([recA, recB] : List Record) ≠ [] ∧
    (generate_plotly_forest_plot [recA, recB] "t" 0 "x" defaultColors).yaxis_categoryarray
      = ["B", "A"] ∧
    (generate_plotly_forest_plot [recA, recB] "t" 0 "x" defaultColors).topToBottomLabels
      = ["A", "B"] := by
  have h := chartBuilder_reverses_input_order [recA, recB] (by simp) "t" 0 "x" defaultColors
  refine ⟨by simp, ?_, ?_⟩
  · rw [h.1]; simp [recA, recB]
  · rw [h.2.1]; simp [recA, recB]

/-- C2: for every non-empty validated table and reference value r, the
computed x-axis range satisfies range_min = effective_min − 0.02 × span and
range_max = effective_max + 0.20 × span, where effective_min is the minimum
of the lower_ci column and r, effective_max the maximum of the upper_ci
column and r, and span their difference. -/
theorem adaptive_axis_range (df : List Record) (h : df ≠ [])
    (title : String) (r : ℚ) (xl : String) (c : PlotColors) :
    (generate_plotly_forest_plot df title r xl c).xaxis_range_min
      = min (qmin (df.map Record.lower_ci)) r
        - (2 / 100) * (max (qmax (df.map Record.upper_ci)) r
          - min (qmin (df.map Record.lower_ci)) r) ∧
    (generate_plotly_forest_plot df title r xl c).xaxis_range_max
      = max (qmax (df.map Record.upper_ci)) r
        + (20 / 100) * (max (qmax (df.map Record.upper_ci)) r
          - min (qmin (df.map Record.lower_ci)) r) := by
  have hln : df.map Record.lower_ci ≠ [] := by simpa using h
  have hun : df.map Record.upper_ci ≠ [] := by simpa using h
  constructor <;>
  · simp only [generate_plotly_forest_plot, List.map_reverse]
    rw [qmin_reverse _ hln, qmax_reverse _ hun]
    ring

/-- Witness for C2 at a record spanning lower_ci 0.40 to upper_ci 1.35 with
reference value 0: the computed range is exactly [−0.027, 1.62]. -/
theorem adaptive_axis_range_witness :
    ([recSpan] : List Record) ≠ [] ∧
    (generate_plotly_forest_plot [recSpan] "t" 0 "x" defaultColors).xaxis_range_min
      = -(27 / 1000) ∧
    (generate_plotly_forest_plot [recSpan] "t" 0 "x" defaultColors).xaxis_range_max
      = 162 / 100 := by
  have h := adaptive_axis_range [recSpan] (by simp) "t" 0 "x" defaultColors
  refine ⟨by simp, ?_, ?_⟩
  · rw [h.1]; simp [recSpan, qmin, qmax]; norm_num [min_def, max_def]
  · rw [h.2]; simp [recSpan, qmin, qmax]; norm_num [min_def, max_def]

/-- C10: in the degenerate case where every lower_ci, every upper_ci and
the reference value all equal the same number v, the Chart Builder computes
span = 0 and sets both range_min and range_max equal to v, with no
minimum-span or epsilon fallback. -/
theorem degenerate_zero_span_range (df : List Record) (v : ℚ) (h : df ≠ [])
    (hl : ∀ rec ∈ df, rec.lower_ci = v) (hu : ∀ rec ∈ df, rec.upper_ci = v)
    (title : String) (xl : String) (c : PlotColors) :
    (generate_plotly_forest_plot df title v xl c).xaxis_range_min = v ∧
    (generate_plotly_forest_plot df title v xl c).xaxis_range_max = v := by
  have hln : df.map Record.lower_ci ≠ [] := by simpa using h
  have hun : df.map Record.upper_ci ≠ [] := by simpa using h
  have h1 : qmin (df.map Record.lower_ci) = v := by
    obtain ⟨rec, hrec, hv⟩ := List.mem_map.mp (qmin_mem _ hln)
    rw [← hv]; exact hl rec hrec
  have h2 : qmax (df.map Record.upper_ci) = v := by
    obtain ⟨rec, hrec, hv⟩ := List.mem_map.mp (qmax_mem _ hun)
    rw [← hv]; exact hu rec hrec
  constructor <;>
  · simp only [generate_plotly_forest_plot, List.map_reverse]
    rw [qmin_reverse _ hln, qmax_reverse _ hun, h1, h2]
    simp only [min_self, max_self]
    ring

/-- Witness for C10 at a single record with both bounds and the reference
value equal to 1: the x-axis range degenerates to the single point 1. -/
theorem degenerate_zero_span_range_witness :
    ([recConst] : List Record) ≠ [] ∧
    (∀ rec ∈ ([recConst] : List Record), rec.lower_ci = 1) ∧
    (∀ rec ∈ ([recConst] : List Record), rec.upper_ci = 1) ∧
    (generate_plotly_forest_plot [recConst] "t" 1 "x" defaultColors).xaxis_range_min = 1 ∧
    (generate_plotly_forest_plot [recConst] "t" 1 "x" defaultColors).xaxis_range_max = 1 := by
  have hl : ∀ rec ∈ ([recConst] : List Record), rec.lower_ci = 1 := by
    intro rec hrec
    rw [List.mem_singleton.mp hrec]; rfl
  have hu : ∀ rec ∈ ([recConst] : List Record), rec.upper_ci = 1 := by
    intro rec hrec
    rw [List.mem_singleton.mp hrec]; rfl
  have h := degenerate_zero_span_range [recConst] 1 (by simp) hl hu "t" "x" defaultColors
  exact ⟨by simp, hl, hu, h.1, h.2⟩

/-- Unfolding of the validator on a table with all required columns. -/
theorem validate_pos (t : RawTable) (h : ∀ c ∈ required_cols, c ∈ t.columns) :
    validate t
      = ⟨false, t.rows.filter rowValid,
          t.rows.length - (t.rows.filter rowValid).length⟩ := by
  unfold validate
  rw [if_pos h]

/-- Unfolding of the validator on a table missing a required column. -/
theorem validate_neg (t : RawTable) (h : ¬ ∀ c ∈ required_cols, c ∈ t.columns) :
    validate t = ⟨true, [], 0⟩ := by
  unfold validate
  rw [if_neg h]

/-- Every row of a validated output table passed the dropna filter. -/
theorem validate_table_rowValid (t : RawTable) :
    ∀ r ∈ (validate t).table, rowValid r = true := by
  intro r hr
  by_cases hc : ∀ c ∈ required_cols, c ∈ t.columns
  · rw [validate_pos t hc] at hr
    exact (List.mem_filter.mp hr).2
  · rw [validate_neg t hc] at hr
    simp at hr

/-- C3: an input table missing at least one of the four required columns
fails validation with the schema-error branch and an empty output table, so
no chart is built downstream; a table containing all four columns passes
the schema check. -/
theorem schema_check_required_columns (t : RawTable) (cfg : Config) :
    ((∃ c ∈ required_cols, c ∉ t.columns) →
      (validate t).schemaError = true ∧ (validate t).table = [] ∧
      (runPipeline t cfg).2 = none) ∧
    ((∀ c ∈ required_cols, c ∈ t.columns) → (validate t).schemaError = false) := by
  constructor
  · intro hmiss
    have hcond : ¬ ∀ c ∈ required_cols, c ∈ t.columns := by
      obtain ⟨c, hc, hnc⟩ := hmiss
      exact fun hall => hnc (hall c hc)
    refine ⟨?_, ?_, ?_⟩ <;> simp [runPipeline, validate_neg t hcond]
  · intro hall
    rw [validate_pos t hall]

/-- Witness for C3: tableMissing lacks the column upper_ci and is rejected
with an empty output and no chart; table9 has all four columns and passes
the schema check. -/
theorem schema_check_required_columns_witness :
    (∃ c ∈ required_cols, c ∉ tableMissing.columns) ∧
    (validate tableMissing).schemaError = true ∧
    (validate tableMissing).table = [] ∧
    (runPipeline tableMissing cfg9).2 = none ∧
    (∀ c ∈ required_cols, c ∈ table9.columns) ∧
    (validate table9).schemaError = false := by
  have hmiss : ∃ c ∈ required_cols, c ∉ tableMissing.columns := by
    refine ⟨"upper_ci", by simp [required_cols], by simp [tableMissing]⟩
  have hall : ∀ c ∈ required_cols, c ∈ table9.columns := by
    intro c hc
    simpa [table9] using hc
  have h1 := (schema_check_required_columns tableMissing cfg9).1 hmiss
  have h2 := (schema_check_required_columns table9 cfg9).2 hall
  exact ⟨hmiss, h1.1, h1.2.1, h1.2.2, hall, h2⟩

/-- C4: with the required columns present, validation drops exactly the
rows carrying the coercion-failure marker (NaN) in one of the three numeric
columns, reports the number of such rows as the dropped-count, and the
surviving rows are the original rows themselves, in their original relative
order. -/
theorem coercion_drops_exactly_invalid_rows (t : RawTable)
    (h : ∀ c ∈ required_cols, c ∈ t.columns) :
    (validate t).table = t.rows.filter rowValid ∧
    (∀ r ∈ t.rows, r ∈ (validate t).table ↔ rowValid r = true) ∧
    (validate t).dropped = (t.rows.filter (fun r => !(rowValid r))).length ∧
    (validate t).table.Sublist t.rows := by
  have htab : (validate t).table = t.rows.filter rowValid := by
    rw [validate_pos t h]
  refine ⟨htab, ?_, ?_, ?_⟩
  · intro r hr
    rw [htab]
    simp [List.mem_filter, hr]
  · have hlen := List.length_eq_length_filter_add (l := t.rows) rowValid
    rw [validate_pos t h]
    show t.rows.length - (t.rows.filter rowValid).length
      = (t.rows.filter (fun r => !(rowValid r))).length
    omega
  · rw [htab]
    exact List.filter_sublist _

/-- Witness for C4 at tableDrop, whose middle row has a NaN value cell: the
output keeps rows A and B unchanged and reports one dropped row. -/
theorem coercion_drops_exactly_invalid_rows_witness :
    (∀ c ∈ required_cols, c ∈ tableDrop.columns) ∧
    (validate tableDrop).table = [rowA, rowB] ∧
    (nanRow ∈ (validate tableDrop).table ↔ rowValid nanRow = true) ∧
    (validate tableDrop).dropped = 1 := by
  have hall : ∀ c ∈ required_cols, c ∈ tableDrop.columns := by
    intro c hc
    simpa [tableDrop] using hc
  have h := coercion_drops_exactly_invalid_rows tableDrop hall
  refine ⟨hall, ?_, ?_, ?_⟩
  · rw [h.1]
    simp [tableDrop, List.filter, rowValid, rowA, rowB, nanRow, PFloat.isNaN]
  · exact h.2.1 nanRow (by simp [tableDrop])
  · rw [h.2.2.1]
    simp [tableDrop, List.filter, rowValid, rowA, rowB, nanRow, PFloat.isNaN]

/-- C5 counterexample: infTable passes the schema check, and its single
row, whose value cell coerced to the double infinity (as the cell "inf"
does under pd.to_numeric), survives the dropna step; the validated output
therefore contains a numeric field that is not finite, refuting the claim
that all numeric fields of validated records are finite. -/
theorem validated_table_nonfinite_counterexample :
    ¬ (∀ r ∈ (validate infTable).table,
        r.value.isFinite = true ∧ r.lower_ci.isFinite = true
          ∧ r.upper_ci.isFinite = true) := by
  intro hall
  have hc : ∀ c ∈ required_cols, c ∈ infTable.columns := by
    intro c hc2
    simpa [infTable] using hc2
  have hmem : infRow ∈ (validate infTable).table := by
    rw [validate_pos infTable hc]
    simp [infTable, List.filter, rowValid, infRow, PFloat.isNaN]
  have h := (hall infRow hmem).1
  simp [infRow, PFloat.isFinite] at h

/-- C5 amended: every record in the validated output table has all four
fields present, and the three numeric fields are valid numbers in the sense
of not being the NaN coercion-failure marker; they are not necessarily
finite, since infinite cells pass the dropna step. -/
theorem validated_fields_not_nan (t : RawTable) :
    ∀ r ∈ (validate t).table,
      r.value.isNaN = false ∧ r.lower_ci.isNaN = false
        ∧ r.upper_ci.isNaN = false := by
  intro r hr
  have hv := validate_table_rowValid t r hr
  simp [rowValid] at hv
  tauto

/-- Witness for C5 (amended) at table9: its first row survives validation
and none of its numeric fields is NaN. -/
theorem validated_fields_not_nan_witness :
    rowA ∈ (validate table9).table ∧
    (rowA.value.isNaN = false ∧ rowA.lower_ci.isNaN = false
      ∧ rowA.upper_ci.isNaN = false) := by
  have hc : ∀ c ∈ required_cols, c ∈ table9.columns := by
    intro c hc2
    simpa [table9] using hc2
  have hmem : rowA ∈ (validate table9).table := by
    rw [validate_pos table9 hc]
    simp [table9, List.filter, rowValid, rowA, rowB, PFloat.isNaN]
  exact ⟨hmem, validated_fields_not_nan table9 rowA hmem⟩

/-- C6: the error-bar extents attached to the scatter trace are, per
record, upper_ci − value on the upper side and value − lower_ci on the
lower side, passed through unclamped; for value 0.75, lower_ci 0.60,
upper_ci 0.90 both extents equal 0.15, and an ordering-violating record
produces a negative extent that is not corrected. -/
theorem asymmetric_error_bars :
    (∀ (df : List Record) (title : String) (r : ℚ) (xl : String) (c : PlotColors),
      (generate_plotly_forest_plot df title r xl c).err_array
        = (df.map (fun rec => rec.upper_ci - rec.value)).reverse ∧
      (generate_plotly_forest_plot df title r xl c).err_arrayminus
        = (df.map (fun rec => rec.value - rec.lower_ci)).reverse) ∧
    (generate_plotly_forest_plot [recA] "t" 0 "x" defaultColors).err_array
      = [15 / 100] ∧
    (generate_plotly_forest_plot [recA] "t" 0 "x" defaultColors).err_arrayminus
      = [15 / 100] ∧
    (generate_plotly_forest_plot [recNeg] "t" 0 "x" defaultColors).err_array
      = [-(1 / 2)] := by
  refine ⟨fun df title r xl c => ⟨?_, ?_⟩, ?_, ?_, ?_⟩ <;>
    simp [generate_plotly_forest_plot, List.map_reverse, recA, recNeg] <;>
    norm_num

/-- C7: for each record the Chart Builder places a right-aligned text
annotation at x = range_max, y = the record label, whose text renders the
record fields in fixed two-decimal formatting as value followed by the
bracketed bounds; for value 1.20, lower_ci 1.05, upper_ci 1.35 the text is
exactly "1.20 [1.05, 1.35]". -/
theorem numeric_annotations :
    (∀ (df : List Record) (title : String) (r : ℚ) (xl : String) (c : PlotColors),
      (generate_plotly_forest_plot df title r xl c).annotations
        = df.reverse.map (fun rec =>
            ⟨(generate_plotly_forest_plot df title r xl c).xaxis_range_max,
              rec.label,
              format2f rec.value ++ " [" ++ format2f rec.lower_ci ++ ", "
                ++ format2f rec.upper_ci ++ "]",
              "right", "middle"⟩)) ∧
    format2f (120 / 100) = "1.20" ∧
    format2f (105 / 100) = "1.05" ∧
    format2f (135 / 100) = "1.35" ∧
    (generate_plotly_forest_plot [recB] "t" 0 "x" defaultColors).annotations.map
        Annotation.text
      = ["1.20 [1.05, 1.35]"] := by
  have h120 : format2f (120 / 100 : ℚ) = "1.20" := by
    have hq : ((120 / 100 : ℚ) * 100) = 120 := by norm_num
    have hr : roundHalfEven ((120 / 100 : ℚ) * 100) = 120 := by
      rw [hq]
      unfold roundHalfEven
      norm_num
    have hneg : ¬ ((120 / 100 : ℚ) < 0) := by norm_num
    simp only [format2f, hr, if_neg hneg]
    decide
  have h105 : format2f (105 / 100 : ℚ) = "1.05" := by
    have hq : ((105 / 100 : ℚ) * 100) = 105 := by norm_num
    have hr : roundHalfEven ((105 / 100 : ℚ) * 100) = 105 := by
      rw [hq]
      unfold roundHalfEven
      norm_num
    have hneg : ¬ ((105 / 100 : ℚ) < 0) := by norm_num
    simp only [format2f, hr, if_neg hneg]
    decide
  have h135 : format2f (135 / 100 : ℚ) = "1.35" := by
    have hq : ((135 / 100 : ℚ) * 100) = 135 := by norm_num
    have hr : roundHalfEven ((135 / 100 : ℚ) * 100) = 135 := by
      rw [hq]
      unfold roundHalfEven
      norm_num
    have hneg : ¬ ((135 / 100 : ℚ) < 0) := by norm_num
    simp only [format2f, hr, if_neg hneg]
    decide
  refine ⟨fun df title r xl c => rfl, h120, h105, h135, ?_⟩
  simp only [generate_plotly_forest_plot, recB, List.reverse_cons, List.reverse_nil,
    List.nil_append, List.map_cons, List.map_nil]
  rw [h120, h105, h135]
  decide

/-- C8: validation and chart building are deterministic pure functions of
the uploaded table and the display configuration: running the pipeline
twice on equal inputs yields the same validation result (same output table
and dropped-count) and an identical figure. -/
theorem pipeline_deterministic (t1 t2 : RawTable) (cfg1 cfg2 : Config)
    (ht : t1 = t2) (hcfg : cfg1 = cfg2) :
    validate t1 = validate t2 ∧ runPipeline t1 cfg1 = runPipeline t2 cfg2 := by
  subst ht
  subst hcfg
  exact ⟨rfl, rfl⟩

/-- Witness for C8: two runs on the example table and the default
configuration coincide. -/
theorem pipeline_deterministic_witness :
    table9 = table9 ∧ cfg9 = cfg9 ∧ validate table9 = validate table9 ∧
    runPipeline table9 cfg9 = runPipeline table9 cfg9 := by
  have h := pipeline_deterministic table9 table9 cfg9 cfg9 rfl rfl
  exact ⟨rfl, rfl, h.1, h.2⟩

/-- C9 counterexample: on the two-row example input with the default
configuration, the top-to-bottom y-order of the produced chart is [A, B],
not [B, A]: the category array [B, A] is laid out bottom-up, so B is the
bottom row and A the top row. -/
theorem end_to_end_order_counterexample :
    (runPipeline table9 cfg9).2.map Figure.topToBottomLabels ≠ some ["B", "A"] := by
  have hc : ∀ c ∈ required_cols, c ∈ table9.columns := by
    intro c hc2
    simpa [table9] using hc2
  have hv : (validate table9).table = [rowA, rowB] := by
    rw [validate_pos table9 hc]
    simp [table9, List.filter, rowValid, rowA, rowB, PFloat.isNaN]
  have heval : (runPipeline table9 cfg9).2.map Figure.topToBottomLabels
      = some ["A", "B"] := by
    simp [runPipeline, hv, generate_plotly_forest_plot, Figure.topToBottomLabels,
      RawRow.toRecord, rowA, rowB]
  rw [heval]
  simp

/-- C9 amended: the two-row example input with reference value 0 yields a
chart with exactly 2 markers and a dropped-row count of 0, whose y-axis
category array is [B, A] (stacked bottom-up), i.e. y-order [A, B] read top
to bottom. -/
theorem end_to_end_concrete :
    (runPipeline table9 cfg9).1.dropped = 0 ∧
    (runPipeline table9 cfg9).2.map (fun f => f.trace_x.length) = some 2 ∧
    (runPipeline table9 cfg9).2.map Figure.yaxis_categoryarray = some ["B", "A"] ∧
    (runPipeline table9 cfg9).2.map Figure.topToBottomLabels = some ["A", "B"] := by
  have hc : ∀ c ∈ required_cols, c ∈ table9.columns := by
    intro c hc2
    simpa [table9] using hc2
  have hval := validate_pos table9 hc
  have hv : (validate table9).table = [rowA, rowB] := by
    rw [hval]
    simp [table9, List.filter, rowValid, rowA, rowB, PFloat.isNaN]
  have hd : (validate table9).dropped = 0 := by
    rw [hval]
    simp [table9, List.filter, rowValid, rowA, rowB, PFloat.isNaN]
  refine ⟨?_, ?_, ?_, ?_⟩ <;>
    simp [runPipeline, hv, hd, generate_plotly_forest_plot,
      Figure.topToBottomLabels, RawRow.toRecord, rowA, rowB]

end ForestPlot
